import Mathlib

/-!
Verification of the Morphlink autopilot scaling supervisor
(`AutopilotSystem` in `autopilot.js`).

The supervisor polls the monolith's health endpoint, decides whether to
scale the redirector duty up (spawn a worker microservice, then set the
monolith redirector flag to `inactive`) or down (set the flag back to
`active`, then stop the worker), tracks consecutive sampling failures,
and shuts itself down after three consecutive failures.

The embedding is a shallow one: each method of the class becomes a pure
Lean function from a supervisor/monolith state (plus an environment
record capturing the outcome of the external calls a tick performs) to a
new state together with a trace of externally visible events (spawns,
signals sent, status-set commands).  The `setTimeout`-based force-kill
of `stopMicroservice` is modelled by a scheduled-timer flag plus a
`forceKillFire` function that evaluates the timer's callback against the
state current when the timer fires, exactly as the JavaScript closure
reads `this.microserviceProcess` at fire time.
-/

namespace Autopilot

/-- The monolith's internal `redirectorStatus` flag: `'active'` or `'inactive'`. -/
inductive RedirectorStatus where
  | active
  | inactive
deriving DecidableEq, Repr

/-- The authority state the health endpoint reports: `'integrated'` when the
monolith redirector is active, `'separated'` otherwise. -/
inductive AuthorityState where
  | integrated
  | separated
deriving DecidableEq, Repr

/-- The three possible outcomes of the scaling decision engine. -/
inductive Decision where
  | scaleUp
  | scaleDown
  | noAction
deriving DecidableEq, Repr

/-- OS signals the supervisor sends to the worker process. -/
inductive Sig where
  | sigterm
  | sigkill
deriving DecidableEq, Repr

/-- Externally visible events a supervisor operation can emit: spawning a
worker (with its pid), invoking the worker-stop routine past its null-handle
guard, sending an OS signal to a pid, and issuing a status-set command to the
monolith (with its success flag). -/
inductive Event where
  | spawned (pid : Nat)
  | stopWorkerCall (pid : Nat)
  | sig (pid : Nat) (s : Sig)
  | setStatus (st : RedirectorStatus) (ok : Bool)
deriving DecidableEq, Repr

/-- `CONFIG.LOAD_THRESHOLD` in `autopilot.js`. -/
def CONFIG_LOAD_THRESHOLD : Nat := 20

/-- `CONFIG.POLL_INTERVAL` (milliseconds) in `autopilot.js`. -/
def CONFIG_POLL_INTERVAL : Nat := 10000

/-- The grace window (milliseconds) of the `setTimeout` in
`stopMicroservice` before the force-kill callback fires. -/
def FORCE_KILL_TIMEOUT_MS : Nat := 5000

/-- Combined state of the supervisor instance (`microserviceProcess`,
`isMonitoring`, `pollInterval`, `consecutiveErrors`, `maxConsecutiveErrors`)
and the monolith's `redirectorStatus` flag.  `microserviceProcess` is the
worker handle (`some pid` when a child process handle is held); `pollInterval`
records whether the recurring timer is installed; `nextPid` is bookkeeping for
assigning fresh pids on spawn. -/
structure SysState where
  microserviceProcess : Option Nat
  isMonitoring : Bool
  pollInterval : Bool
  consecutiveErrors : Nat
  maxConsecutiveErrors : Nat
  redirectorStatus : RedirectorStatus
  nextPid : Nat
deriving DecidableEq, Repr

/-- Outcomes of the external calls a single tick can perform: `health` is
`some load` when the `GET /api/health` query succeeds with that load value and
`none` when it fails (timeout, connection error, malformed body); `spawnOk`
is whether the spawned worker survives the 1s confirmation wait;
`setInactiveOk` / `setActiveOk` are whether the
`POST /api/internal/set-redirector-status` command succeeds for the respective
status; `killOk` is whether `process.kill('SIGTERM')` returns without
throwing. -/
structure Env where
  health : Option Nat
  spawnOk : Bool
  setInactiveOk : Bool
  setActiveOk : Bool
  killOk : Bool
deriving DecidableEq, Repr

/-- State of a freshly constructed `AutopilotSystem` (constructor) together
with the monolith's initial `redirectorStatus = 'active'`. -/
def initialState : SysState :=
  { microserviceProcess := none
    isMonitoring := false
    pollInterval := false
    consecutiveErrors := 0
    maxConsecutiveErrors := 3
    redirectorStatus := RedirectorStatus.active
    nextPid := 0 }

/-- The authority state the monolith's health endpoint reports for a given
flag value: `'integrated'` iff `redirectorStatus === 'active'`. -/
def reportedState (s : SysState) : AuthorityState :=
  if s.redirectorStatus = RedirectorStatus.active then AuthorityState.integrated
  else AuthorityState.separated

/-- The pure scaling decision of `makeScalingDecision`: scale up iff
`currentLoad > CONFIG.LOAD_THRESHOLD && !isMicroserviceRunning`, scale down
iff `currentLoad <= CONFIG.LOAD_THRESHOLD && isMicroserviceRunning`, otherwise
no action.  The reported authority state is accepted as an argument (the
method receives `currentStatus`) but, as in the source, plays no role in the
branch conditions. -/
def scalingDecision (threshold load : Nat) (status : AuthorityState)
    (workerRunning : Bool) : Decision :=
  if load > threshold ∧ workerRunning = false then Decision.scaleUp
  else if load ≤ threshold ∧ workerRunning = true then Decision.scaleDown
  else Decision.noAction

/-- `stopMicroservice`: with no handle, log and return (no state change, no
events, no timer).  With a handle `p`: send `SIGTERM` to `p` (the send itself
may throw, in which case the `setTimeout` for the force kill is never
installed, and the error is caught), then unconditionally null the handle.
Returns (new state, events emitted now, whether the 5s force-kill timer was
scheduled). -/
def stopMicroservice (killOk : Bool) (s : SysState) :
    SysState × List Event × Bool :=
  match s.microserviceProcess with
  | none => (s, [], false)
  | some p =>
    if killOk then
      ({ s with microserviceProcess := none },
       [Event.stopWorkerCall p, Event.sig p Sig.sigterm], true)
    else
      ({ s with microserviceProcess := none },
       [Event.stopWorkerCall p], false)

/-- The callback of the force-kill `setTimeout` in `stopMicroservice`,
evaluated against the state current when the timer fires: it re-reads
`this.microserviceProcess` and sends `SIGKILL` to whatever pid the handle
holds at that moment, or does nothing if the handle is null. -/
def forceKillFire (s : SysState) : List Event :=
  match s.microserviceProcess with
  | some q => [Event.sig q Sig.sigkill]
  | none => []

/-- `stop`: set `isMonitoring` to false, clear the poll timer, and invoke
`stopMicroservice` if a handle is held (the scheduled-timer flag of the
force kill is dropped here; `forceKillFire` models its later firing). -/
def stop (killOk : Bool) (s : SysState) : SysState × List Event :=
  let s1 := { s with isMonitoring := false, pollInterval := false }
  match s1.microserviceProcess with
  | some _ =>
    let r := stopMicroservice killOk s1
    (r.1, r.2.1)
  | none => (s1, [])

/-- The imperative body of `makeScalingDecision`:

* scale-up branch: `startMicroservice()` (handle set to a fresh pid; on
  spawn failure the error handler nulls the handle and the promise rejects,
  caught by the branch's `catch` which only logs), 2s sleep, then
  `setMonolithRedirectorStatus('inactive')`; if that command fails the
  `catch` only logs — no rollback of the spawned worker;
* scale-down branch: `setMonolithRedirectorStatus('active')` first (on
  failure the `catch` only logs and the worker is untouched), 1s sleep, then
  `stopMicroservice()`;
* otherwise: log only. -/
def makeScalingDecisionRun (env : Env) (load : Nat) (s : SysState) :
    SysState × List Event :=
  match scalingDecision CONFIG_LOAD_THRESHOLD load (reportedState s)
      s.microserviceProcess.isSome with
  | Decision.scaleUp =>
    if env.spawnOk then
      let pid := s.nextPid
      let s1 := { s with microserviceProcess := some pid, nextPid := s.nextPid + 1 }
      if env.setInactiveOk then
        ({ s1 with redirectorStatus := RedirectorStatus.inactive },
         [Event.spawned pid, Event.setStatus RedirectorStatus.inactive true])
      else
        (s1, [Event.spawned pid, Event.setStatus RedirectorStatus.inactive false])
    else
      (s, [])
  | Decision.scaleDown =>
    if env.setActiveOk then
      let s1 := { s with redirectorStatus := RedirectorStatus.active }
      let r := stopMicroservice env.killOk s1
      (r.1, Event.setStatus RedirectorStatus.active true :: r.2.1)
    else
      (s, [Event.setStatus RedirectorStatus.active false])
  | Decision.noAction => (s, [])

/-- `checkLoadAndScale` (one poll tick): query the health endpoint; on
success reset `consecutiveErrors` to 0 and run the scaling decision; on
failure increment `consecutiveErrors` and, once it reaches
`maxConsecutiveErrors`, call `stop()`. -/
def checkLoadAndScale (env : Env) (s : SysState) : SysState × List Event :=
  match env.health with
  | some load =>
    makeScalingDecisionRun env load { s with consecutiveErrors := 0 }
  | none =>
    let s1 := { s with consecutiveErrors := s.consecutiveErrors + 1 }
    if s1.consecutiveErrors ≥ s1.maxConsecutiveErrors then
      stop env.killOk s1
    else
      (s1, [])

/-- `start`: if already monitoring, log a warning and return unchanged;
otherwise set `isMonitoring`, reset `consecutiveErrors`, install the poll
timer, and run the immediate initial `checkLoadAndScale`. -/
def start (env : Env) (s : SysState) : SysState × List Event :=
  if s.isMonitoring then (s, [])
  else
    checkLoadAndScale env
      { s with isMonitoring := true, consecutiveErrors := 0, pollInterval := true }

/-- The record `getStatus()` returns (the immutable `config` field is
omitted; it is the constant `CONFIG`). -/
structure Status where
  isMonitoring : Bool
  microserviceRunning : Bool
  consecutiveErrors : Nat
deriving DecidableEq, Repr

/-- `getStatus`: `microserviceRunning` is `this.microserviceProcess !== null`. -/
def getStatus (s : SysState) : Status :=
  { isMonitoring := s.isMonitoring
    microserviceRunning := s.microserviceProcess.isSome
    consecutiveErrors := s.consecutiveErrors }

/-- One step of the supervisor: an explicit `start()` call, a poll tick while
monitoring, an unexpected worker exit (the `exit` handler registered in
`startMicroservice`, which nulls the handle and logs), or an explicit
`stop()` call. -/
inductive Step : SysState → SysState → Prop where
  | startCall (env : Env) (s : SysState) : Step s (start env s).1
  | tick (env : Env) (s : SysState) :
      s.isMonitoring = true → Step s (checkLoadAndScale env s).1
  | workerExit (s : SysState) (p : Nat) :
      s.microserviceProcess = some p →
      Step s { s with microserviceProcess := none }
  | stopCall (killOk : Bool) (s : SysState) : Step s (stop killOk s).1

/-- States reachable from the freshly constructed supervisor. -/
inductive Reachable : SysState → Prop where
  | init : Reachable initialState
  | step {s s' : SysState} : Reachable s → Step s s' → Reachable s'

/-- The claimed safety invariant: the flag is never `'inactive'`
(`Separated`) while no worker handle exists. -/
def Inv (s : SysState) : Prop :=
  s.redirectorStatus = RedirectorStatus.inactive →
    s.microserviceProcess.isSome = true

/-- The decision branches of `makeScalingDecisionRun` never touch
`consecutiveErrors`. -/
theorem makeScalingDecisionRun_consecutiveErrors (env : Env) (load : Nat)
    (s : SysState) :
    (makeScalingDecisionRun env load s).1.consecutiveErrors =
      s.consecutiveErrors := by
  unfold makeScalingDecisionRun stopMicroservice
  cases h : s.microserviceProcess <;> simp [h] <;>
    split <;> (try split) <;> (try split) <;> rfl

/-- C1: the scaling decision is `ScaleUp` exactly when the rate strictly
exceeds the threshold with no worker running, `ScaleDown` exactly when the
rate is at most the threshold with a worker running, and `NoAction` in every
other combination — in particular the boundary sample `rate = threshold`
with no worker running yields `NoAction`, for every reported authority
state. -/
theorem scalingDecision_cases (t r : Nat) (st : AuthorityState) (w : Bool) :
    (r > t → w = false → scalingDecision t r st w = Decision.scaleUp)
    ∧ (r ≤ t → w = true → scalingDecision t r st w = Decision.scaleDown)
    ∧ (¬(r > t ∧ w = false) → ¬(r ≤ t ∧ w = true) →
        scalingDecision t r st w = Decision.noAction)
    ∧ scalingDecision t t st false = Decision.noAction := by
  unfold scalingDecision
  refine ⟨?_, ?_, ?_, ?_⟩ <;> intros <;> split_ifs <;> simp_all

/-- Witness for C1 at threshold 20: rate 25 with no worker scales up, rate 20
with a worker scales down, and the boundary rate 20 with no worker is
`NoAction`. -/
theorem scalingDecision_cases_witness :
    scalingDecision 20 25 AuthorityState.integrated false = Decision.scaleUp
    ∧ scalingDecision 20 20 AuthorityState.separated true = Decision.scaleDown
    ∧ scalingDecision 20 20 AuthorityState.integrated false = Decision.noAction :=
  ⟨(scalingDecision_cases 20 25 AuthorityState.integrated false).1
      (by decide) rfl,
   (scalingDecision_cases 20 20 AuthorityState.separated true).2.1
      (by decide) rfl,
   (scalingDecision_cases 20 20 AuthorityState.integrated false).2.2.2⟩

/-- C7: after any tick whose load query succeeds, `consecutiveErrors` is 0,
whatever the scaling decision does and whether or not the handoff steps
inside the tick fail — only load-query failures increment the counter. -/
theorem success_tick_resets_errors (env : Env) (s : SysState) (L : Nat)
    (hh : env.health = some L) :
    (checkLoadAndScale env s).1.consecutiveErrors = 0 := by
  unfold checkLoadAndScale
  rw [hh]
  exact makeScalingDecisionRun_consecutiveErrors env L _

/-- Witness for C7: a tick that samples load 25, spawns the worker, and then
fails the authority-switch command still ends with `consecutiveErrors = 0`. -/
theorem success_tick_resets_errors_witness :
    (checkLoadAndScale ⟨some 25, true, false, true, true⟩
        initialState).1.consecutiveErrors = 0 :=
  success_tick_resets_errors ⟨some 25, true, false, true, true⟩
    initialState 25 rfl

/-- C8: calling `start()` while already monitoring is a no-op: the state
(poll timer, worker handle, `consecutiveErrors`, everything) is unchanged and
no external event is emitted. -/
theorem start_reentrant_noop (env : Env) (s : SysState)
    (h : s.isMonitoring = true) :
    start env s = (s, []) := by
  unfold start
  rw [h]
  simp

/-- Witness for C8: `start()` on an already monitoring state with a worker
running returns it untouched. -/
theorem start_reentrant_noop_witness :
    start ⟨some 30, true, true, true, true⟩
        ⟨some 4, true, true, 2, 3, RedirectorStatus.inactive, 5⟩ =
      (⟨some 4, true, true, 2, 3, RedirectorStatus.inactive, 5⟩, []) :=
  start_reentrant_noop ⟨some 30, true, true, true, true⟩
    ⟨some 4, true, true, 2, 3, RedirectorStatus.inactive, 5⟩ rfl

/-- C9: `stopMicroservice` with no active handle is a safe no-op: it returns
with the state unchanged, emits no event, and schedules no force-kill
timer. -/
theorem stopMicroservice_no_handle_noop (k : Bool) (s : SysState)
    (h : s.microserviceProcess = none) :
    stopMicroservice k s = (s, [], false) := by
  unfold stopMicroservice
  rw [h]

/-- Witness for C9: stopping with a null handle changes nothing. -/
theorem stopMicroservice_no_handle_noop_witness :
    stopMicroservice true
        ⟨none, true, true, 1, 3, RedirectorStatus.active, 7⟩ =
      (⟨none, true, true, 1, 3, RedirectorStatus.active, 7⟩, [], false) :=
  stopMicroservice_no_handle_noop true
    ⟨none, true, true, 1, 3, RedirectorStatus.active, 7⟩ rfl

/-- C10: every `stopMicroservice` call returns (it catches a failing kill)
with the worker handle null, so `getStatus` reports `microserviceRunning =
false` and the next tick's decision sees no worker — even when sending the
termination signal throws (`killOk = false`). -/
theorem stopMicroservice_clears_handle (k : Bool) (s : SysState) :
    (stopMicroservice k s).1.microserviceProcess = none
    ∧ (getStatus (stopMicroservice k s).1).microserviceRunning = false := by
  unfold stopMicroservice getStatus
  cases h : s.microserviceProcess <;> cases k <;> simp_all

/-- C2 counterexample: with load 25 sampled, a successful spawn, and a
failing authority-switch command, the tick ends with the worker handle still
`some 0` — the spawned worker is NOT stopped, refuting the claim that at the
end of the tick the worker is not running. -/
theorem scaleup_flagfail_counterexample :
    (checkLoadAndScale ⟨some 25, true, false, true, true⟩
        ⟨none, true, true, 0, 3, RedirectorStatus.active, 0⟩).1.microserviceProcess
      = some 0
    ∧ ¬ (checkLoadAndScale ⟨some 25, true, false, true, true⟩
        ⟨none, true, true, 0, 3, RedirectorStatus.active, 0⟩).1.microserviceProcess
      = none := by
  decide

/-- C2 (amended): if during a `ScaleUp` transition the worker is spawned and
confirmed but the authority-switch command fails, the `catch` only logs: the
worker it just started is left running (handle = the fresh pid), the
authority flag is unchanged (still `Integrated`), and the tick emits exactly
the spawn event and the failed status-set command — no stop call and no
signal. -/
theorem scaleup_flagfail_no_rollback (env : Env) (s : SysState) (L : Nat)
    (hh : env.health = some L) (hL : CONFIG_LOAD_THRESHOLD < L)
    (hw : s.microserviceProcess = none)
    (hspawn : env.spawnOk = true) (hset : env.setInactiveOk = false) :
    (checkLoadAndScale env s).1.microserviceProcess = some s.nextPid
    ∧ (checkLoadAndScale env s).1.redirectorStatus = s.redirectorStatus
    ∧ (checkLoadAndScale env s).2 =
        [Event.spawned s.nextPid,
         Event.setStatus RedirectorStatus.inactive false] := by
  unfold checkLoadAndScale makeScalingDecisionRun scalingDecision
  rw [hh]
  simp [hw, hspawn, hset, hL]

/-- Witness for the amended C2 at load 25 from a monitored state with no
worker. -/
theorem scaleup_flagfail_no_rollback_witness :
    (checkLoadAndScale ⟨some 25, true, false, true, true⟩
        ⟨none, true, true, 2, 3, RedirectorStatus.active, 6⟩).1.microserviceProcess
      = some 6
    ∧ (checkLoadAndScale ⟨some 25, true, false, true, true⟩
        ⟨none, true, true, 2, 3, RedirectorStatus.active, 6⟩).1.redirectorStatus
      = RedirectorStatus.active
    ∧ (checkLoadAndScale ⟨some 25, true, false, true, true⟩
        ⟨none, true, true, 2, 3, RedirectorStatus.active, 6⟩).2 =
        [Event.spawned 6, Event.setStatus RedirectorStatus.inactive false] :=
  scaleup_flagfail_no_rollback ⟨some 25, true, false, true, true⟩
    ⟨none, true, true, 2, 3, RedirectorStatus.active, 6⟩ 25 rfl (by decide)
    rfl rfl rfl

/-- C3 counterexample: the state with the flag `'inactive'` (`Separated`) and
no worker handle is reachable — a successful scale-up tick followed by an
unexpected worker exit (whose handler nulls the handle but leaves the flag
untouched) violates the claimed invariant. -/
theorem authority_invariant_counterexample :
    Reachable ⟨none, true, true, 0, 3, RedirectorStatus.inactive, 1⟩
    ∧ ¬ Inv ⟨none, true, true, 0, 3, RedirectorStatus.inactive, 1⟩ := by
  constructor
  · have h1 := Step.startCall ⟨some 25, true, true, true, true⟩ initialState
    have e1 : (start ⟨some 25, true, true, true, true⟩ initialState).1 =
        ⟨some 0, true, true, 0, 3, RedirectorStatus.inactive, 1⟩ := by decide
    rw [e1] at h1
    have r1 := Reachable.step Reachable.init h1
    have h2 := Step.workerExit
      ⟨some 0, true, true, 0, 3, RedirectorStatus.inactive, 1⟩ 0 rfl
    exact Reachable.step r1 h2
  · intro h
    simpa using h rfl

/-- The decision branches of a tick preserve the invariant
"flag `'inactive'` implies a worker handle exists". -/
theorem makeScalingDecisionRun_preserves_Inv (env : Env) (load : Nat)
    (s : SysState) (h : Inv s) :
    Inv (makeScalingDecisionRun env load s).1 := by
  unfold Inv at h ⊢
  unfold makeScalingDecisionRun scalingDecision stopMicroservice
  cases hm : s.microserviceProcess <;>
    simp [hm] at h ⊢ <;> split_ifs <;> simp_all

/-- C3 (amended): a poll tick preserves the invariant "the flag is never
`Separated` while no worker handle exists" provided the tick is not a fatal
one — its load query succeeds, or the failure does not reach
`maxConsecutiveErrors`.  (The invariant can be broken only by an unexpected
worker exit, an explicit `stop()`, or the fatal-error shutdown occurring
while `Separated`, each of which drops the worker while leaving the flag
`'inactive'`, as the counterexample shows.) -/
theorem nonfatal_tick_preserves_invariant (env : Env) (s : SysState)
    (h : Inv s)
    (hsafe : env.health.isSome = true
      ∨ s.consecutiveErrors + 1 < s.maxConsecutiveErrors) :
    Inv (checkLoadAndScale env s).1 := by
  unfold checkLoadAndScale
  cases hh : env.health with
  | some L => exact makeScalingDecisionRun_preserves_Inv env L _ h
  | none =>
    rcases hsafe with hs | hs
    · rw [hh] at hs
      simp at hs
    · simp only []
      split
      · omega
      · exact h

/-- Witness for the amended C3: a successful scale-up tick from the freshly
started state keeps the invariant. -/
theorem nonfatal_tick_preserves_invariant_witness :
    Inv (checkLoadAndScale ⟨some 25, true, true, true, true⟩ initialState).1 :=
  nonfatal_tick_preserves_invariant ⟨some 25, true, true, true, true⟩
    initialState (by simp [Inv, initialState]) (Or.inl rfl)

/-- C4: the force-kill of `stopMicroservice` can never reach the process it
was stopping.  `stopMicroservice` nulls `this.microserviceProcess`
synchronously, and the 5s `setTimeout` callback re-reads that field instead
of a captured reference, so at fire time the guard sees `null` (unless a
*new* worker was spawned meanwhile, in which case the `SIGKILL` would target
the new pid).  Concretely: stopping the worker with pid 1 schedules the timer
and sends only `SIGTERM`; when the timer fires (no intervening spawn) it
sends nothing, and universally the state left by any `stopMicroservice`
makes the callback a no-op; had pid 2 been spawned meanwhile, the callback
would `SIGKILL` pid 2, not pid 1. -/
theorem forcekill_never_reaches_stopped_process :
    (∀ (k : Bool) (s : SysState), forceKillFire (stopMicroservice k s).1 = [])
    ∧ (stopMicroservice true
        ⟨some 1, true, true, 0, 3, RedirectorStatus.inactive, 2⟩).2.2 = true
    ∧ (stopMicroservice true
        ⟨some 1, true, true, 0, 3, RedirectorStatus.inactive, 2⟩).2.1 =
        [Event.stopWorkerCall 1, Event.sig 1 Sig.sigterm]
    ∧ forceKillFire ⟨some 2, true, true, 0, 3, RedirectorStatus.active, 3⟩ =
        [Event.sig 2 Sig.sigkill]
    ∧ FORCE_KILL_TIMEOUT_MS = 5000 := by
  refine ⟨?_, by decide, by decide, by decide, rfl⟩
  intro k s
  unfold forceKillFire stopMicroservice
  cases hm : s.microserviceProcess <;> cases k <;> simp [hm]

/-- C5: three consecutive failed load queries starting from a clean error
counter make the supervisor stop itself entirely: `isMonitoring` is false,
the poll timer is cleared, and any previously running worker has been
terminated (handle null) — and nothing in the model restarts it. -/
theorem fatal_errors_stop_supervisor (env : Env) (s : SysState)
    (hh : env.health = none) (h0 : s.consecutiveErrors = 0)
    (hmax : s.maxConsecutiveErrors = 3) :
    (checkLoadAndScale env
        (checkLoadAndScale env (checkLoadAndScale env s).1).1).1.isMonitoring
      = false
    ∧ (checkLoadAndScale env
        (checkLoadAndScale env (checkLoadAndScale env s).1).1).1.pollInterval
      = false
    ∧ (checkLoadAndScale env
        (checkLoadAndScale env (checkLoadAndScale env s).1).1).1.microserviceProcess
      = none := by
  unfold checkLoadAndScale stop stopMicroservice
  rw [hh]
  cases hm : s.microserviceProcess <;> cases hk : env.killOk <;>
    simp [h0, hmax, hm, hk]

/-- Witness for C5: a separated state with a running worker and three failed
health checks ends stopped, timerless and workerless. -/
theorem fatal_errors_stop_supervisor_witness :
    (checkLoadAndScale ⟨none, true, true, true, true⟩
        (checkLoadAndScale ⟨none, true, true, true, true⟩
          (checkLoadAndScale ⟨none, true, true, true, true⟩
            ⟨some 0, true, true, 0, 3, RedirectorStatus.inactive, 1⟩).1).1).1.isMonitoring
      = false
    ∧ (checkLoadAndScale ⟨none, true, true, true, true⟩
        (checkLoadAndScale ⟨none, true, true, true, true⟩
          (checkLoadAndScale ⟨none, true, true, true, true⟩
            ⟨some 0, true, true, 0, 3, RedirectorStatus.inactive, 1⟩).1).1).1.pollInterval
      = false
    ∧ (checkLoadAndScale ⟨none, true, true, true, true⟩
        (checkLoadAndScale ⟨none, true, true, true, true⟩
          (checkLoadAndScale ⟨none, true, true, true, true⟩
            ⟨some 0, true, true, 0, 3, RedirectorStatus.inactive, 1⟩).1).1).1.microserviceProcess
      = none :=
  fatal_errors_stop_supervisor ⟨none, true, true, true, true⟩
    ⟨some 0, true, true, 0, 3, RedirectorStatus.inactive, 1⟩ rfl rfl rfl

/-- C6: in a `ScaleDown` tick, the authority-switch command setting the flag
back to `'active'` completes strictly before the worker-stop call is issued
(it is the head of the event trace, the stop call and `SIGTERM` follow, and
there is exactly one stop call); if the command fails, no stop call is issued
in that tick, the worker is left running, the supervisor state is unchanged
apart from the error-counter reset, and the same `ScaleDown` decision is
reached again from the post-state on a later tick with the load still at most
the threshold. -/
theorem scaledown_flag_before_stop (env : Env) (s : SysState) (L p : Nat)
    (hh : env.health = some L) (hL : L ≤ CONFIG_LOAD_THRESHOLD)
    (hw : s.microserviceProcess = some p) :
    (env.setActiveOk = true →
      (checkLoadAndScale env s).2 =
        Event.setStatus RedirectorStatus.active true :: Event.stopWorkerCall p ::
          (if env.killOk = true then [Event.sig p Sig.sigterm] else [])
      ∧ (checkLoadAndScale env s).1.redirectorStatus = RedirectorStatus.active
      ∧ (checkLoadAndScale env s).1.microserviceProcess = none)
    ∧ (env.setActiveOk = false →
      (checkLoadAndScale env s).2 =
        [Event.setStatus RedirectorStatus.active false]
      ∧ (checkLoadAndScale env s).1.microserviceProcess = some p
      ∧ scalingDecision CONFIG_LOAD_THRESHOLD L
          (reportedState (checkLoadAndScale env s).1)
          (checkLoadAndScale env s).1.microserviceProcess.isSome
        = Decision.scaleDown) := by
  unfold checkLoadAndScale makeScalingDecisionRun stopMicroservice
  rw [hh]
  constructor <;> intro hset <;>
    simp [scalingDecision, hw, hset, Nat.not_lt.mpr hL, hL] <;>
    cases hk : env.killOk <;> simp [hk]

/-- Witness for C6 in both environments: with the command succeeding the
trace is flag-first then stop; with it failing only the failed command is
traced and the worker survives. -/
theorem scaledown_flag_before_stop_witness :
    ((checkLoadAndScale ⟨some 5, true, true, true, true⟩
        ⟨some 3, true, true, 0, 3, RedirectorStatus.inactive, 4⟩).2 =
      [Event.setStatus RedirectorStatus.active true, Event.stopWorkerCall 3,
       Event.sig 3 Sig.sigterm]
      ∧ (checkLoadAndScale ⟨some 5, true, true, true, true⟩
          ⟨some 3, true, true, 0, 3, RedirectorStatus.inactive, 4⟩).1.redirectorStatus
        = RedirectorStatus.active
      ∧ (checkLoadAndScale ⟨some 5, true, true, true, true⟩
          ⟨some 3, true, true, 0, 3, RedirectorStatus.inactive, 4⟩).1.microserviceProcess
        = none)
    ∧ ((checkLoadAndScale ⟨some 5, true, true, false, true⟩
        ⟨some 3, true, true, 0, 3, RedirectorStatus.inactive, 4⟩).2 =
      [Event.setStatus RedirectorStatus.active false]
      ∧ (checkLoadAndScale ⟨some 5, true, true, false, true⟩
          ⟨some 3, true, true, 0, 3, RedirectorStatus.inactive, 4⟩).1.microserviceProcess
        = some 3
      ∧ scalingDecision CONFIG_LOAD_THRESHOLD 5
          (reportedState (checkLoadAndScale ⟨some 5, true, true, false, true⟩
            ⟨some 3, true, true, 0, 3, RedirectorStatus.inactive, 4⟩).1)
          (checkLoadAndScale ⟨some 5, true, true, false, true⟩
            ⟨some 3, true, true, 0, 3, RedirectorStatus.inactive, 4⟩).1.microserviceProcess.isSome
        = Decision.scaleDown) :=
  ⟨(scaledown_flag_before_stop ⟨some 5, true, true, true, true⟩
      ⟨some 3, true, true, 0, 3, RedirectorStatus.inactive, 4⟩ 5 3 rfl
      (by decide) rfl).1 rfl,
   (scaledown_flag_before_stop ⟨some 5, true, true, false, true⟩
      ⟨some 3, true, true, 0, 3, RedirectorStatus.inactive, 4⟩ 5 3 rfl
      (by decide) rfl).2 rfl⟩

end Autopilot
